import Mathlib

/- Shallow embedding of the odoorpc-aio RPC layer
   (src/odoorpc_aio/rpc/jsonrpclib.py and src/odoorpc_aio/rpc/__init__.py).
   Python data is modelled with explicit Lean values: text as String, byte
   strings as List Nat (each entry one byte), JSON values as the JValue
   inductive, and raised exceptions as Except / Option results. -/

/-- JSON values as handled by Python's json module. Objects keep their key
insertion order as association lists (Python dicts are ordered). Float
literals are kept as their raw source text, since the code under study never
computes with them. -/
inductive JValue where
  | null
  | bool (b : Bool)
  | int (n : Int)
  | float (raw : String)
  | str (s : String)
  | arr (items : List JValue)
  | obj (fields : List (String × JValue))

/-- Lookup of a key in an ordered association list (Python dict lookup;
keys are unique by construction, see insertKV). -/
def dictLookup (l : List (String × JValue)) (k : String) : Option JValue :=
  (l.find? (fun kv => kv.1 == k)).map (fun kv => kv.2)

/-- Field lookup on a JSON value; none when the value is not an object or
the key is absent. -/
def JValue.lookup : JValue → String → Option JValue
  | JValue.obj fields, k => dictLookup fields k
  | _, _ => none

/-- Python exceptions that the modelled code can raise. -/
inductive PyError where
  | attributeError
  | keyError
  | typeError
  | valueError
deriving DecidableEq

/-- URLBuilder (jsonrpclib.py lines 94-117). The instance holds `_rpc`
(the owning proxy, kept outside this structure: see PyAttr) and `_url`,
the accumulated path, which is None on a fresh builder. -/
structure URLBuilder where
  url : Option String
deriving DecidableEq

/-- URLBuilder.__getattr__ (jsonrpclib.py lines 102-104):
`new_url = self._url and '/'.join([self._url, path]) or path`.
The and/or chain encodes Python string truthiness: when `_url` is None or
the empty string the result is just `path`, otherwise the slash-join. -/
def URLBuilder.getattrRaw (b : URLBuilder) (path : String) : URLBuilder :=
  match b.url with
  | none => { url := some path }
  | some u => if u = "" then { url := some path } else { url := some (u ++ "/" ++ path) }

/-- Attribute names found on a URLBuilder instance through normal lookup
before `__getattr__` fires: the methods defined by the class itself plus
the attributes inherited from CPython's object type. -/
def classAttrs : List String :=
  ["__init__", "__getattr__", "__getitem__", "__call__", "__str__",
   "__module__", "__doc__", "__dict__", "__weakref__", "__class__",
   "__delattr__", "__dir__", "__eq__", "__format__", "__ge__",
   "__getattribute__", "__getstate__", "__gt__", "__hash__",
   "__init_subclass__", "__le__", "__lt__", "__ne__", "__new__",
   "__reduce__", "__reduce_ex__", "__repr__", "__setattr__",
   "__sizeof__", "__subclasshook__"]

/-- Every attribute name that is already defined on a URLBuilder instance:
the two instance fields set by __init__ plus the class/object attributes.
For these names Python's getattr never reaches `__getattr__`. -/
def definedAttrs : List String := "_rpc" :: "_url" :: classAttrs

/-- Result of a Python attribute access on a URLBuilder: either a new
builder (via `__getattr__`), one of the two instance fields, or a member
inherited from the class/object (a bound method or metadata slot). -/
inductive PyAttr where
  | builder (b : URLBuilder)
  | rpcField
  | urlField (u : Option String)
  | classMember (name : String)
deriving DecidableEq

/-- Python attribute lookup on a URLBuilder instance: the instance dict
(`_rpc`, `_url`) and class/object attributes are found by normal lookup;
only otherwise does `__getattr__` (lines 102-104) run and build a new
URLBuilder. -/
def URLBuilder.pyGetattr (b : URLBuilder) (name : String) : PyAttr :=
  if name = "_rpc" then PyAttr.rpcField
  else if name = "_url" then PyAttr.urlField b.url
  else if name ∈ classAttrs then PyAttr.classMember name
  else PyAttr.builder (b.getattrRaw name)

/-- Slash stripping done by URLBuilder.__getitem__ (lines 107-110): drop
exactly one leading and then one trailing slash character, each only when
the string is nonempty and actually starts/ends with a slash. -/
def stripOneSlash (path : String) : String :=
  let p1 := if path ≠ "" ∧ path.front = '/' then path.drop 1 else path
  if p1 ≠ "" ∧ p1.back = '/' then p1.dropRight 1 else p1

/-- URLBuilder.__getitem__ (lines 106-111): strip one leading and one
trailing slash, then delegate to the builtin getattr (full Python
attribute lookup, not directly `__getattr__`). -/
def URLBuilder.getitem (b : URLBuilder) (path : String) : PyAttr :=
  b.pyGetattr (stripOneSlash path)

/-- One step of chained access on a builder: member-style access
`b.name` or indexed access `b[s]`. -/
inductive Access where
  | attr (name : String)
  | index (s : String)
deriving DecidableEq

/-- The segment name contributed by an access: the attribute name itself,
or the index argument after the one-slash normalization. -/
def segName : Access → String
  | Access.attr n => n
  | Access.index s => stripOneSlash s

/-- Apply one access to a builder (Python semantics, including the cases
where the result is not a builder at all). -/
def applyAccess (b : URLBuilder) : Access → PyAttr
  | Access.attr n => b.pyGetattr n
  | Access.index s => b.getitem s

/-- Apply a sequence of accesses; none as soon as an intermediate result
is not a builder (the chain then cannot continue as a path chain). -/
def applyAccesses (b : URLBuilder) : List Access → Option URLBuilder
  | [] => some b
  | a :: rest =>
    match applyAccess b a with
    | PyAttr.builder b2 => applyAccesses b2 rest
    | _ => none

/-- Python's '/'.join over a list of strings. -/
def joinSlash : List String → String
  | [] => ""
  | [s] => s
  | s :: l => s ++ "/" ++ joinSlash l

/-- Model of Python's utf-8 codec on one Unicode scalar value, as invoked
per character by bytes(data, 'utf-8') in encode_data (jsonrpclib.py
lines 11-15). -/
def utf8EncodeCp (n : Nat) : List Nat :=
  if n < 0x80 then [n]
  else if n < 0x800 then [0xC0 + n / 0x40, 0x80 + n % 0x40]
  else if n < 0x10000 then
    [0xE0 + n / 0x1000, 0x80 + n / 0x40 % 0x40, 0x80 + n % 0x40]
  else
    [0xF0 + n / 0x40000, 0x80 + n / 0x1000 % 0x40, 0x80 + n / 0x40 % 0x40,
     0x80 + n % 0x40]

/-- Utf-8 encoding of a character sequence, byte by byte. -/
def utf8EncodeChars : List Char → List Nat
  | [] => []
  | c :: cs => utf8EncodeCp c.toNat ++ utf8EncodeChars cs

/-- Decode a single utf-8 sequence given its lead byte and the bytes that
follow it: the Unicode scalar value and the bytes left over. None when the
sequence is malformed (bad lead byte, bad continuation byte, overlong
form, surrogate, out-of-range value, truncated input) — the cases in which
Python's strict utf-8 codec raises UnicodeDecodeError. -/
def utf8Step (b : Nat) (bs : List Nat) : Option (Nat × List Nat) :=
  if b < 0x80 then some (b, bs)
  else if b < 0xE0 then
    match bs with
    | b2 :: bs2 =>
      if 0xC2 ≤ b ∧ 0x80 ≤ b2 ∧ b2 < 0xC0 then
        some ((b - 0xC0) * 0x40 + (b2 - 0x80), bs2)
      else none
    | [] => none
  else if b < 0xF0 then
    match bs with
    | b2 :: b3 :: bs3 =>
      if (0x80 ≤ b2 ∧ b2 < 0xC0) ∧ (0x80 ≤ b3 ∧ b3 < 0xC0) then
        if 0x800 ≤ (b - 0xE0) * 0x1000 + (b2 - 0x80) * 0x40 + (b3 - 0x80) ∧
            ((b - 0xE0) * 0x1000 + (b2 - 0x80) * 0x40 + (b3 - 0x80) < 0xD800 ∨
             0xE000 ≤ (b - 0xE0) * 0x1000 + (b2 - 0x80) * 0x40 + (b3 - 0x80)) then
          some ((b - 0xE0) * 0x1000 + (b2 - 0x80) * 0x40 + (b3 - 0x80), bs3)
        else none
      else none
    | _ => none
  else
    match bs with
    | b2 :: b3 :: b4 :: bs4 =>
      if b ≤ 0xF4 ∧ (0x80 ≤ b2 ∧ b2 < 0xC0) ∧ (0x80 ≤ b3 ∧ b3 < 0xC0) ∧
          (0x80 ≤ b4 ∧ b4 < 0xC0) then
        if 0x10000 ≤ (b - 0xF0) * 0x40000 + (b2 - 0x80) * 0x1000
              + (b3 - 0x80) * 0x40 + (b4 - 0x80) ∧
            (b - 0xF0) * 0x40000 + (b2 - 0x80) * 0x1000
              + (b3 - 0x80) * 0x40 + (b4 - 0x80) < 0x110000 then
          some ((b - 0xF0) * 0x40000 + (b2 - 0x80) * 0x1000
              + (b3 - 0x80) * 0x40 + (b4 - 0x80), bs4)
        else none
      else none
    | _ => none

/-- Fuelled utf-8 decoding loop: one unit of fuel per decoded scalar.
Every scalar consumes at least its lead byte, so fuel equal to the byte
count always suffices. -/
def utf8DecodeLoop : Nat → List Nat → Option (List Nat)
  | _, [] => some []
  | 0, _ :: _ => none
  | fuel+1, b :: bs =>
    match utf8Step b bs with
    | some (cp, rest) => (utf8DecodeLoop fuel rest).map (fun l => cp :: l)
    | none => none

/-- Strict utf-8 decoding of a byte sequence to Unicode scalar values;
None on malformed input. -/
def utf8DecodeCps (l : List Nat) : Option (List Nat) :=
  utf8DecodeLoop l.length l

/-- Argument of the data helpers: a Python str or a bytes object. -/
inductive PyData where
  | str (s : String)
  | bytes (b : List Nat)

/-- encode_data (jsonrpclib.py lines 11-15): bytes(data, 'utf-8') when the
argument is text; the bare except falls back to bytes(data), which passes
a bytes object through unchanged. -/
def encode_data : PyData → List Nat
  | PyData.str s => utf8EncodeChars s.data
  | PyData.bytes b => b

/-- decode_data (jsonrpclib.py lines 18-19): data.decode('utf-8') wrapped
in io.StringIO; modelled as the decoded text itself (the StringIO only
hands the text to json.load), None when decoding raises. -/
def decode_data (b : List Nat) : Option String :=
  (utf8DecodeCps b).map (fun cps => String.mk (cps.map Char.ofNat))

/-- Escaping of one character inside a serialized JSON string (the
escapes relevant to the payloads this code emits; ensure_ascii escaping
of non-ascii characters is not modelled, no claim depends on the exact
byte text of a serialized envelope). -/
def dumpsChar (c : Char) : String :=
  if c = '"' then "\\\""
  else if c = '\\' then "\\\\"
  else if c = '\n' then "\\n"
  else if c = '\t' then "\\t"
  else if c = '\r' then "\\r"
  else String.mk [c]

/-- Serialization of a JSON string literal. -/
def dumpsStr (s : String) : String :=
  "\"" ++ String.join (s.data.map dumpsChar) ++ "\""

mutual

/-- Serialization of a JSON value in the format of Python's json.dumps
with its default separators (", " and ": "), as used on the envelope in
ProxyJSONAIO.__call__ (jsonrpclib.py line 64). -/
def json_dumps : JValue → String
  | JValue.null => "null"
  | JValue.bool true => "true"
  | JValue.bool false => "false"
  | JValue.int n => toString n
  | JValue.float raw => raw
  | JValue.str s => dumpsStr s
  | JValue.arr items => "[" ++ dumpsItems items ++ "]"
  | JValue.obj fields => "\x7b" ++ dumpsFields fields ++ "\x7d"

/-- Comma-joined serialization of array items. -/
def dumpsItems : List JValue → String
  | [] => ""
  | [v] => json_dumps v
  | v :: rest => json_dumps v ++ ", " ++ dumpsItems rest

/-- Comma-joined serialization of object fields. -/
def dumpsFields : List (String × JValue) → String
  | [] => ""
  | [(k, v)] => dumpsStr k ++ ": " ++ json_dumps v
  | (k, v) :: rest => dumpsStr k ++ ": " ++ json_dumps v ++ ", " ++ dumpsFields rest

end

/-- Whitespace skipping as done by Python's json parser. -/
def skipWs : List Char → List Char
  | [] => []
  | c :: cs => if c = ' ' ∨ c = '\t' ∨ c = '\n' ∨ c = '\r' then skipWs cs else c :: cs

/-- Value of a hexadecimal digit. -/
def hexDigitVal (c : Char) : Option Nat :=
  if '0' ≤ c ∧ c ≤ '9' then some (c.toNat - 48)
  else if 'a' ≤ c ∧ c ≤ 'f' then some (c.toNat - 87)
  else if 'A' ≤ c ∧ c ≤ 'F' then some (c.toNat - 55)
  else none

/-- Single-character string escapes of the JSON grammar. -/
def escChar (c : Char) : Option Char :=
  if c = '"' then some '"'
  else if c = '\\' then some '\\'
  else if c = '/' then some '/'
  else if c = 'n' then some '\n'
  else if c = 't' then some '\t'
  else if c = 'r' then some '\r'
  else if c = 'b' then some (Char.ofNat 8)
  else if c = 'f' then some (Char.ofNat 12)
  else none

/-- Parse the remainder of a JSON string literal, the opening quote
already consumed, accumulating characters in reverse. \uXXXX escapes
yield the named code unit (surrogate-pair recombination is not modelled;
none of the studied payloads uses it). -/
def parseStrChars (acc : List Char) : List Char → Option (String × List Char)
  | [] => none
  | c :: cs =>
    if c = '"' then some (String.mk acc.reverse, cs)
    else if c = '\\' then
      match cs with
      | [] => none
      | e :: cs2 =>
        match escChar e with
        | some ec => parseStrChars (ec :: acc) cs2
        | none =>
          if e = 'u' then
            match cs2 with
            | h1 :: h2 :: h3 :: h4 :: cs3 =>
              match hexDigitVal h1, hexDigitVal h2, hexDigitVal h3, hexDigitVal h4 with
              | some v1, some v2, some v3, some v4 =>
                parseStrChars
                  (Char.ofNat (((v1 * 16 + v2) * 16 + v3) * 16 + v4) :: acc) cs3
              | _, _, _, _ => none
            | _ => none
          else none
    else parseStrChars (c :: acc) cs

/-- Numeric value of a digit sequence. -/
def digitsToNat (ds : List Char) : Nat :=
  ds.foldl (fun n c => n * 10 + (c.toNat - 48)) 0

/-- Characters that may occur in a JSON number token after its first
digit. -/
def numChar (c : Char) : Bool :=
  c.isDigit || c == '.' || c == 'e' || c == 'E' || c == '+' || c == '-'

/-- Negate a parsed number (a minus sign was consumed in front of it). -/
def negJ : JValue → JValue
  | JValue.int n => JValue.int (-n)
  | JValue.float raw => JValue.float ("-" ++ raw)
  | v => v

/-- Parse an unsigned JSON number token: an all-digit token becomes an
integer, as in Python's json; a fractional or exponent form is kept as
raw float text. -/
def numCore (cs : List Char) : Option (JValue × List Char) :=
  match cs.span Char.isDigit with
  | (digs, rest) =>
    if digs.isEmpty then none
    else
      match rest with
      | c :: _ =>
        if c = '.' ∨ c = 'e' ∨ c = 'E' then
          match rest.span numChar with
          | (fl, rest2) => some (JValue.float (String.mk (digs ++ fl)), rest2)
        else some (JValue.int (Int.ofNat (digitsToNat digs)), rest)
      | [] => some (JValue.int (Int.ofNat (digitsToNat digs)), [])

/-- Parse a JSON number token with its optional sign. -/
def parseNum : List Char → Option (JValue × List Char)
  | '-' :: rest => (numCore rest).map (fun p => (negJ p.1, p.2))
  | cs => numCore cs

/-- Insertion into an ordered association list with Python dict
semantics: an existing key keeps its position and receives the new value,
a new key is appended. The parser uses it so duplicate keys resolve to
the last occurrence, as in Python's json. -/
def insertKV (l : List (String × JValue)) (k : String) (v : JValue) :
    List (String × JValue) :=
  match l with
  | [] => [(k, v)]
  | (k0, v0) :: rest =>
    if k0 == k then (k0, v) :: rest else (k0, v0) :: insertKV rest k v

/-- Task selector of the fuelled JSON parser: parse one value, the
members of an object (after its opening brace), or the items of an
array. -/
inductive PTask where
  | value
  | members (acc : List (String × JValue))
  | items (acc : List JValue)

/-- Result of one parser task. -/
inductive PRes where
  | value (v : JValue)
  | fields (l : List (String × JValue))
  | elems (l : List JValue)

/-- Model of the recursive descent done by Python's json parsing
(json.load), with fuel bounding the recursion. -/
def parseStep : Nat → PTask → List Char → Option (PRes × List Char)
  | 0, _, _ => none
  | fuel+1, PTask.value, cs =>
    match skipWs cs with
    | [] => none
    | c :: cs1 =>
      if c = '\x7b' then
        match skipWs cs1 with
        | '\x7d' :: cs2 => some (PRes.value (JValue.obj []), cs2)
        | cs2 =>
          match parseStep fuel (PTask.members []) cs2 with
          | some (PRes.fields l, rest) => some (PRes.value (JValue.obj l), rest)
          | _ => none
      else if c = '[' then
        match skipWs cs1 with
        | ']' :: cs2 => some (PRes.value (JValue.arr []), cs2)
        | cs2 =>
          match parseStep fuel (PTask.items []) cs2 with
          | some (PRes.elems l, rest) => some (PRes.value (JValue.arr l), rest)
          | _ => none
      else if c = '"' then
        match parseStrChars [] cs1 with
        | some (s, rest) => some (PRes.value (JValue.str s), rest)
        | none => none
      else if c = 't' then
        match cs1 with
        | 'r' :: 'u' :: 'e' :: rest => some (PRes.value (JValue.bool true), rest)
        | _ => none
      else if c = 'f' then
        match cs1 with
        | 'a' :: 'l' :: 's' :: 'e' :: rest => some (PRes.value (JValue.bool false), rest)
        | _ => none
      else if c = 'n' then
        match cs1 with
        | 'u' :: 'l' :: 'l' :: rest => some (PRes.value JValue.null, rest)
        | _ => none
      else if c = '-' ∨ c.isDigit then
        match parseNum (c :: cs1) with
        | some (v, rest) => some (PRes.value v, rest)
        | none => none
      else none
  | fuel+1, PTask.members acc, cs =>
    match skipWs cs with
    | '"' :: cs1 =>
      match parseStrChars [] cs1 with
      | some (k, cs2) =>
        match skipWs cs2 with
        | ':' :: cs3 =>
          match parseStep fuel PTask.value cs3 with
          | some (PRes.value v, cs4) =>
            match skipWs cs4 with
            | ',' :: cs5 => parseStep fuel (PTask.members (insertKV acc k v)) cs5
            | '\x7d' :: cs5 => some (PRes.fields (insertKV acc k v), cs5)
            | _ => none
          | _ => none
        | _ => none
      | none => none
    | _ => none
  | fuel+1, PTask.items acc, cs =>
    match parseStep fuel PTask.value cs with
    | some (PRes.value v, cs2) =>
      match skipWs cs2 with
      | ',' :: cs3 => parseStep fuel (PTask.items (acc ++ [v])) cs3
      | ']' :: cs3 => some (PRes.elems (acc ++ [v]), cs3)
      | _ => none
    | _ => none

/-- json.load on a full text: parse one value, allow surrounding
whitespace, reject trailing content (Python raises on it → None here).
The fuel is ample: the parser consumes input on every recursive call. -/
def jsonParse (s : String) : Option JValue :=
  match parseStep (2 * s.length + 4) PTask.value s.data with
  | some (PRes.value v, rest) =>
    match skipWs rest with
    | [] => some v
    | _ :: _ => none
  | _ => none

/-- Root url construction in Proxy.__init__ (jsonrpclib.py lines 37-39):
scheme chosen by the ssl flag, then host:port. -/
def rootUrl (host : String) (port : Nat) (ssl : Bool) : String :=
  (if ssl then "https://" else "http://") ++ host ++ ":" ++ toString port

/-- State of a ProxyJSONAIO instance (jsonrpclib.py lines 55-61): the
fields _root_url, _timeout and _deserialize. The shared client session is
environmental and the _builder holds no state of its own. -/
structure ProxyJSON where
  root_url : String
  timeout : Int
  deserialize : Bool
deriving DecidableEq

/-- The proxy constructed by awaiting the ProxyJSON factory
(lines 22-26), which runs ProxyJSONAIO.__init__ (lines 59-61). -/
def ProxyJSON.make (host : String) (port : Nat) (timeout : Int) (ssl : Bool)
    (deserialize : Bool) : ProxyJSON :=
  { root_url := rootUrl host port ssl, timeout := timeout,
    deserialize := deserialize }

/-- State of a ProxyHTTPAIO instance (lines 82-91): _root_url and
_timeout. -/
structure ProxyHTTP where
  root_url : String
  timeout : Int
deriving DecidableEq

/-- The proxy constructed by awaiting the ProxyHTTP factory
(lines 29-32). -/
def ProxyHTTP.make (host : String) (port : Nat) (timeout : Int) (ssl : Bool) :
    ProxyHTTP :=
  { root_url := rootUrl host port ssl, timeout := timeout }

/-- The url argument handed to client_session.post: ProxyJSONAIO passes a
string; ProxyHTTPAIO passes a one-element tuple because of the trailing
comma on line 87. -/
inductive UrlArg where
  | str (s : String)
  | tuple1 (s : String)
deriving DecidableEq

/-- A POST request as issued to the aiohttp client session: the url
argument, the optional body bytes, the optional headers, and the timeout
keyword exactly when one was passed. -/
structure PostRequest where
  url : UrlArg
  data : Option (List Nat)
  headers : Option (List (String × String))
  timeout : Option Int

/-- Result of a ProxyJSONAIO call: the raw response bytes when
deserialization is off, otherwise the parsed JSON (None inside meaning
the decode or parse exception propagates). -/
inductive CallResult where
  | raw (b : List Nat)
  | parsed (v : Option JValue)

/-- The JSON-RPC envelope dict built by ProxyJSONAIO.__call__
(lines 64-69), keys in their insertion order; rid stands for the
random.randint(0, 1000000000) draw. -/
def jsonCallEnvelope (params : List (String × JValue)) (rid : Int) : JValue :=
  JValue.obj [("jsonrpc", JValue.str "2.0"), ("method", JValue.str "call"),
    ("params", JValue.obj params), ("id", JValue.int rid)]

/-- ProxyJSONAIO.__call__ (lines 63-79) with the environment made
explicit: rid is the random id draw, respBody the bytes read from the
response. Returns the POST request issued and the call's result. No
timeout keyword is passed to post on this path. -/
def ProxyJSON.call (p : ProxyJSON) (url : String)
    (params : List (String × JValue)) (rid : Int) (respBody : List Nat) :
    PostRequest × CallResult :=
  let body := json_dumps (jsonCallEnvelope params rid)
  let url2 := if url.startsWith "/" then url.drop 1 else url
  let req : PostRequest :=
    { url := UrlArg.str (p.root_url ++ "/" ++ url2),
      data := some (encode_data (PyData.str body)),
      headers := some [("Content-Type", "application/json")],
      timeout := none }
  let res :=
    if p.deserialize then
      CallResult.parsed ((decode_data respBody).bind (fun t => jsonParse t))
    else CallResult.raw respBody
  (req, res)

/-- Python truthiness of the optional data argument of
ProxyHTTPAIO.__call__: None, empty text and empty bytes are falsy. -/
def pyDataTruthy : Option PyData → Bool
  | none => false
  | some (PyData.str s) => !(s == "")
  | some (PyData.bytes b) => !b.isEmpty

/-- ProxyHTTPAIO.__call__ (lines 86-91): no leading-slash stripping, the
full_url is a one-element tuple (trailing comma on line 87), the data is
encoded only when truthy, and the stored timeout is passed to post. The
live response object is returned to the caller unconsumed
(environmental, not modelled). -/
def ProxyHTTP.call (p : ProxyHTTP) (url : String) (data : Option PyData)
    (headers : Option (List (String × String))) : PostRequest :=
  { url := UrlArg.tuple1 (p.root_url ++ "/" ++ url),
    data := match data with
      | some d => if pyDataTruthy (some d) then some (encode_data d) else none
      | none => none,
    headers := headers,
    timeout := some p.timeout }

/-- URLBuilder.__call__ (lines 113-114) on a builder owned by a JSON
proxy: forwards the accumulated url and the kwargs to the proxy. On a
fresh builder _url is None and url.startswith inside the proxy would
raise, hence the None case. -/
def builderInvokeJson (p : ProxyJSON) (b : URLBuilder)
    (kwargs : List (String × JValue)) (rid : Int) (respBody : List Nat) :
    Option (PostRequest × CallResult) :=
  match b.url with
  | none => none
  | some u => some (ProxyJSON.call p u kwargs rid respBody)

/-- A proxy object of either flavour. -/
inductive PyProxyVal where
  | json (p : ProxyJSON)
  | http (p : ProxyHTTP)
deriving DecidableEq

/-- What a _proxy_json / _proxy_http slot of the Connector holds: a real
proxy object, or the un-awaited coroutine produced by calling the async
factory ProxyJSON / ProxyHTTP (jsonrpclib.py lines 22-32) without await —
which is what _get_proxies does. The coroutine carries the proxy it would
construct were it awaited. -/
inductive ProxySlot where
  | obj (v : PyProxyVal)
  | coroutine (wouldBe : PyProxyVal)
deriving DecidableEq

/-- Reading ._timeout from a proxy slot: coroutine objects have no such
attribute, so the access raises AttributeError. -/
def ProxySlot.get_timeout : ProxySlot → Except PyError Int
  | ProxySlot.obj (PyProxyVal.json p) => Except.ok p.timeout
  | ProxySlot.obj (PyProxyVal.http p) => Except.ok p.timeout
  | ProxySlot.coroutine _ => Except.error PyError.attributeError

/-- Assigning ._timeout on a proxy slot: coroutine objects reject
attribute assignment with AttributeError. -/
def ProxySlot.set_timeout : ProxySlot → Int → Except PyError ProxySlot
  | ProxySlot.obj (PyProxyVal.json p), t =>
    Except.ok (ProxySlot.obj (PyProxyVal.json { p with timeout := t }))
  | ProxySlot.obj (PyProxyVal.http p), t =>
    Except.ok (ProxySlot.obj (PyProxyVal.http { p with timeout := t }))
  | ProxySlot.coroutine _, _ => Except.error PyError.attributeError

/-- ConnectorJSONRPC state. Modelled from the spec: the base synchronous
Connector class lives in the wrapped external library (absent from this
repository) and, per the spec's external-interfaces section, supplies the
host, port, timeout and version fields; its TLS flag is false for the
plain JSON-RPC connector. The remaining fields come from
ConnectorJSONRPC.__init__ (rpc/__init__.py lines 150-157). -/
structure ConnectorJSONRPC where
  host : String
  port : Nat
  timeout : Int
  version : Option JValue
  deserialize : Bool
  proxy_json : ProxySlot
  proxy_http : ProxySlot

/-- ConnectorJSONRPC._get_proxies (rpc/__init__.py lines 159-171): calls
the async factories jsonrpclib.ProxyJSON and jsonrpclib.ProxyHTTP without
await, so both returned values are coroutine objects, not proxies. -/
def ConnectorJSONRPC.get_proxies (host : String) (port : Nat) (timeout : Int)
    (ssl : Bool) (deserialize : Bool) : ProxySlot × ProxySlot :=
  (ProxySlot.coroutine
      (PyProxyVal.json (ProxyJSON.make host port timeout ssl deserialize)),
   ProxySlot.coroutine (PyProxyVal.http (ProxyHTTP.make host port timeout ssl)))

/-- ConnectorJSONRPC.__init__ (lines 150-157): store the configuration,
keep the version argument as given (None when absent), store what
_get_proxies returns. No introspection request is issued here; the
detect_version coroutine is a separate explicit step (its TODO comment
plans to move it into the first request). -/
def ConnectorJSONRPC.init (host : String) (port : Nat) (timeout : Int)
    (version : Option JValue) (deserialize : Bool) : ConnectorJSONRPC :=
  let slots := ConnectorJSONRPC.get_proxies host port timeout false deserialize
  { host := host, port := port, timeout := timeout, version := version,
    deserialize := deserialize, proxy_json := slots.1, proxy_http := slots.2 }

/-- The timeout property getter (lines 191-194): reads
self._proxy_json._timeout. -/
def ConnectorJSONRPC.timeout_read (c : ConnectorJSONRPC) : Except PyError Int :=
  c.proxy_json.get_timeout

/-- The timeout property setter (lines 196-200): assigns
self._proxy_json._timeout, then self._proxy_http._timeout. -/
def ConnectorJSONRPC.timeout_write (c : ConnectorJSONRPC) (t : Int) :
    Except PyError ConnectorJSONRPC :=
  match c.proxy_json.set_timeout t with
  | Except.error e => Except.error e
  | Except.ok pj =>
    match c.proxy_http.set_timeout t with
    | Except.error e => Except.error e
    | Except.ok ph => Except.ok { c with proxy_json := pj, proxy_http := ph }

/-- The state the Connector would be in had _get_proxies awaited the two
factories — the await that the code omits. -/
def awaitProxies (c : ConnectorJSONRPC) : ConnectorJSONRPC :=
  { c with
    proxy_json := match c.proxy_json with
      | ProxySlot.coroutine v => ProxySlot.obj v
      | s => s,
    proxy_http := match c.proxy_http with
      | ProxySlot.coroutine v => ProxySlot.obj v
      | s => s }

/-- Python subscription x[k] with a string key: dict lookup raising
KeyError when the key is absent; every non-dict value raises TypeError on
a string subscript. -/
def pyGetItemStr : JValue → String → Except PyError JValue
  | JValue.obj fields, k =>
    match dictLookup fields k with
    | some v => Except.ok v
    | none => Except.error PyError.keyError
  | _, _ => Except.error PyError.typeError

/-- Substring test between strings, by characters. -/
def strContains (s k : String) : Bool :=
  (List.range (s.length + 1)).any (fun i => k.isPrefixOf (s.drop i))

/-- Python membership `k in x` for a string k: key membership on dicts,
substring on strings, element equality on lists, TypeError otherwise. -/
def pyContainsStr : JValue → String → Except PyError Bool
  | JValue.obj fields, k => Except.ok (dictLookup fields k).isSome
  | JValue.str s, k => Except.ok (strContains s k)
  | JValue.arr items, k =>
    Except.ok (items.any (fun v => match v with
      | JValue.str s => s == k
      | _ => false))
  | _, _ => Except.error PyError.typeError

/-- detect_version (rpc/__init__.py lines 173-179) with the network made
explicit: `result` is the parsed JSON-RPC response of the
web/webclient/version_info call; returns the connector's version after
the update. With a version already set, no request is made and nothing
changes. -/
def detect_version (version : Option JValue) (result : JValue) :
    Except PyError (Option JValue) :=
  match version with
  | some v => Except.ok (some v)
  | none =>
    match pyGetItemStr result "result" with
    | Except.error e => Except.error e
    | Except.ok inner =>
      match pyContainsStr inner "server_version" with
      | Except.error e => Except.error e
      | Except.ok true =>
        match pyGetItemStr inner "server_version" with
        | Except.error e => Except.error e
        | Except.ok v => Except.ok (some v)
      | Except.ok false => Except.ok none

/-- detect_version applied to the raw response body: with deserialize on,
the proxy call parses the body with json.load first (a parse failure
raises ValueError). -/
def detectFromBody (version : Option JValue) (body : String) :
    Except PyError (Option JValue) :=
  match version with
  | some v => Except.ok (some v)
  | none =>
    match jsonParse body with
    | none => Except.error PyError.valueError
    | some r => detect_version none r

/-- The introspection response body named by claim C6. -/
def jsonBody16 : String :=
  "\x7b\"jsonrpc\":\"2.0\",\"id\":1,\"result\":\x7b\"server_version\":\"16.0\"\x7d\x7d"

theorem joinSlash_cons_cons (a b : String) (l : List String) :
    joinSlash (a :: b :: l) = a ++ "/" ++ joinSlash (b :: l) := rfl

theorem joinSlash_glue (u s : String) (l : List String) :
    joinSlash ((u ++ "/" ++ s) :: l) = u ++ "/" ++ joinSlash (s :: l) := by
  cases l with
  | nil => rfl
  | cons x xs => simp [joinSlash_cons_cons, String.append_assoc]

theorem append_slash_ne_empty (u s : String) : u ++ "/" ++ s ≠ "" := by
  intro h
  have hl := congrArg String.length h
  rw [String.length_append, String.length_append] at hl
  have h1 : String.length "/" = 1 := rfl
  have h0 : String.length "" = 0 := rfl
  omega

theorem pyGetattr_free (b : URLBuilder) (name : String)
    (h : name ∉ definedAttrs) :
    b.pyGetattr name = PyAttr.builder (b.getattrRaw name) := by
  simp only [definedAttrs, List.mem_cons, not_or] at h
  obtain ⟨h1, h2, h3⟩ := h
  simp [URLBuilder.pyGetattr, h1, h2, h3]

theorem applyAccess_free (b : URLBuilder) (a : Access)
    (h : segName a ∉ definedAttrs) :
    applyAccess b a = PyAttr.builder (b.getattrRaw (segName a)) := by
  cases a with
  | attr n => exact pyGetattr_free b n h
  | index s => exact pyGetattr_free b (stripOneSlash s) h

theorem getattrRaw_nonempty (u : String) (hu : u ≠ "") (s : String) :
    URLBuilder.getattrRaw { url := some u } s = { url := some (u ++ "/" ++ s) } := by
  simp [URLBuilder.getattrRaw, hu]

/-- Once the accumulated path is a nonempty string, a chain of accesses
whose segment names avoid the already-defined attribute names extends the
path by slash-joining the segment names. -/
theorem applyAccesses_join (as : List Access) :
    ∀ u : String, u ≠ "" →
    (∀ a ∈ as, segName a ∉ definedAttrs) →
    applyAccesses { url := some u } as
      = some { url := some (joinSlash (u :: as.map segName)) } := by
  induction as with
  | nil => intro u hu _; simp [applyAccesses, joinSlash]
  | cons a rest ih =>
    intro u hu h
    have ha : segName a ∉ definedAttrs := h a (List.mem_cons_self a rest)
    have hrest : ∀ x ∈ rest, segName x ∉ definedAttrs :=
      fun x hx => h x (List.mem_cons_of_mem a hx)
    have hstep : applyAccess { url := some u } a
        = PyAttr.builder { url := some (u ++ "/" ++ segName a) } := by
      rw [applyAccess_free _ _ ha, getattrRaw_nonempty u hu]
    simp only [applyAccesses, hstep]
    rw [ih (u ++ "/" ++ segName a) (append_slash_ne_empty u (segName a)) hrest]
    rw [List.map_cons, joinSlash_cons_cons]
    rw [joinSlash_glue]

/-- C1 counterexample: the claim fails as stated. The access sequence
builder["/"].a has segment names ["", "a"] whose '/'-join is "/a", but the
code yields the path "a": the empty first segment leaves `_url` falsy, so
the next `__getattr__` discards the separator. -/
theorem c1_counterexample :
    applyAccesses { url := none } [Access.index "/", Access.attr "a"] ≠
      some { url := some (joinSlash
        (List.map segName [Access.index "/", Access.attr "a"])) } := by
  decide

/-- C1 (amended): for every nonempty access sequence whose first segment
name is nonempty and whose segment names all avoid the attribute names
already defined on the builder (`_rpc`, `_url` and the class/object
members), the resulting builder's path is the '/'-join of the segment
names, indexed access contributing its argument stripped of exactly one
leading and one trailing slash; in particular builder["/a/"] and
builder.a yield builders with equal paths. -/
theorem c1_path_join_amended (a : Access) (rest : List Access)
    (h0 : segName a ≠ "")
    (h : ∀ x ∈ a :: rest, segName x ∉ definedAttrs) :
    applyAccesses { url := none } (a :: rest)
      = some { url := some (joinSlash ((a :: rest).map segName)) } := by
  have hstep : applyAccess { url := none } a
      = PyAttr.builder { url := some (segName a) } := by
    rw [applyAccess_free _ _ (h a (List.mem_cons_self a rest))]
    rfl
  simp only [applyAccesses, hstep, List.map_cons]
  exact applyAccesses_join rest (segName a) h0
    (fun x hx => h x (List.mem_cons_of_mem a hx))

/-- C1 witness: builder["/a/"].b has path "a/b", the '/'-join of the
segment names a and b. -/
theorem c1_path_join_witness :
    applyAccesses { url := none } [Access.index "/a/", Access.attr "b"]
      = some { url := some (joinSlash
          (List.map segName [Access.index "/a/", Access.attr "b"])) } :=
  c1_path_join_amended (Access.index "/a/") [Access.attr "b"]
    (by decide) (by decide)

/-- C10: indexed access b[s] extends the path exactly when the stripped
name is not an attribute already defined on the builder; for the internal
fields the stripped names "_rpc" and "_url" return the owning proxy and
the stored path instead of a new builder, and no already-defined name
ever yields a builder. -/
theorem c10_getitem_reserved (b : URLBuilder) (s : String) :
    (stripOneSlash s ∉ definedAttrs →
        b.getitem s = PyAttr.builder (b.getattrRaw (stripOneSlash s))) ∧
    (stripOneSlash s = "_rpc" → b.getitem s = PyAttr.rpcField) ∧
    (stripOneSlash s = "_url" → b.getitem s = PyAttr.urlField b.url) ∧
    (stripOneSlash s ∈ definedAttrs →
        ∀ b2 : URLBuilder, b.getitem s ≠ PyAttr.builder b2) := by
  refine ⟨?_, ?_, ?_, ?_⟩
  · intro h
    exact pyGetattr_free b (stripOneSlash s) h
  · intro h
    simp [URLBuilder.getitem, URLBuilder.pyGetattr, h]
  · intro h
    have hne : stripOneSlash s ≠ "_rpc" := by rw [h]; decide
    simp [URLBuilder.getitem, URLBuilder.pyGetattr, h, hne]
  · intro hmem b2
    simp only [URLBuilder.getitem, URLBuilder.pyGetattr]
    by_cases h1 : stripOneSlash s = "_rpc"
    · rw [if_pos h1]; exact fun h => PyAttr.noConfusion h
    · rw [if_neg h1]
      by_cases h2 : stripOneSlash s = "_url"
      · rw [if_pos h2]; exact fun h => PyAttr.noConfusion h
      · rw [if_neg h2]
        by_cases h3 : stripOneSlash s ∈ classAttrs
        · rw [if_pos h3]; exact fun h => PyAttr.noConfusion h
        · exfalso
          simp only [definedAttrs, List.mem_cons] at hmem
          rcases hmem with he | he | he
          · exact h1 he
          · exact h2 he
          · exact h3 he

/-- C10 witness: builder["/_url/"] returns the stored path value (None on
a fresh builder), not a new builder. -/
theorem c10_getitem_reserved_witness :
    URLBuilder.getitem { url := none } "/_url/" = PyAttr.urlField none :=
  (c10_getitem_reserved { url := none } "/_url/").2.2.1 (by decide)

theorem utf8Step_encode (c : Char) (t : List Nat) :
    ∃ b bs, utf8EncodeCp c.toNat = b :: bs ∧ utf8Step b (bs ++ t) = some (c.toNat, t) := by
  have hv : c.toNat < 0xD800 ∨ (0xDFFF < c.toNat ∧ c.toNat < 0x110000) := c.valid
  generalize c.toNat = n at hv ⊢
  by_cases h1 : n < 0x80
  · refine ⟨n, [], by simp [utf8EncodeCp, h1], ?_⟩
    rw [List.nil_append]
    simp only [utf8Step]
    rw [if_pos h1]
  by_cases h2 : n < 0x800
  · refine ⟨0xC0 + n / 0x40, [0x80 + n % 0x40], by simp [utf8EncodeCp, h1, h2], ?_⟩
    simp only [List.cons_append, List.nil_append, utf8Step]
    rw [if_neg (by omega), if_pos (by omega), if_pos ⟨by omega, by omega, by omega⟩,
      show (0xC0 + n / 0x40 - 0xC0) * 0x40 + (0x80 + n % 0x40 - 0x80) = n from by omega]
  by_cases h3 : n < 0x10000
  · refine ⟨0xE0 + n / 0x1000, [0x80 + n / 0x40 % 0x40, 0x80 + n % 0x40],
      by simp [utf8EncodeCp, h1, h2, h3], ?_⟩
    simp only [List.cons_append, List.nil_append, utf8Step]
    rw [if_neg (by omega), if_neg (by omega), if_pos (by omega),
      if_pos ⟨⟨by omega, by omega⟩, by omega, by omega⟩, if_pos (by omega),
      show (0xE0 + n / 0x1000 - 0xE0) * 0x1000 + (0x80 + n / 0x40 % 0x40 - 0x80) * 0x40
        + (0x80 + n % 0x40 - 0x80) = n from by omega]
  · refine ⟨0xF0 + n / 0x40000, [0x80 + n / 0x1000 % 0x40, 0x80 + n / 0x40 % 0x40,
      0x80 + n % 0x40], by simp [utf8EncodeCp, h1, h2, h3], ?_⟩
    simp only [List.cons_append, List.nil_append, utf8Step]
    rw [if_neg (by omega), if_neg (by omega), if_neg (by omega),
      if_pos ⟨by omega, ⟨by omega, by omega⟩, ⟨by omega, by omega⟩, by omega, by omega⟩,
      if_pos (by omega),
      show (0xF0 + n / 0x40000 - 0xF0) * 0x40000 + (0x80 + n / 0x1000 % 0x40 - 0x80) * 0x1000
        + (0x80 + n / 0x40 % 0x40 - 0x80) * 0x40 + (0x80 + n % 0x40 - 0x80) = n from by omega]

theorem utf8DecodeLoop_cons_step (fuel : Nat) (b : Nat) (bs : List Nat) (cp : Nat)
    (rest : List Nat) (h : utf8Step b bs = some (cp, rest)) :
    utf8DecodeLoop (fuel+1) (b :: bs)
      = (utf8DecodeLoop fuel rest).map (fun l => cp :: l) := by
  rw [utf8DecodeLoop, h]

theorem utf8DecodeLoop_encodeChars (cs : List Char) :
    ∀ fuel, cs.length ≤ fuel →
    utf8DecodeLoop fuel (utf8EncodeChars cs) = some (cs.map Char.toNat) := by
  induction cs with
  | nil =>
    intro fuel _
    cases fuel with
    | zero => rfl
    | succ f => rfl
  | cons c cs ih =>
    intro fuel hf
    cases fuel with
    | zero =>
      rw [List.length_cons] at hf
      omega
    | succ f =>
      obtain ⟨b, bs, he, hs⟩ := utf8Step_encode c (utf8EncodeChars cs)
      have hf2 : cs.length ≤ f := by
        rw [List.length_cons] at hf
        omega
      rw [utf8EncodeChars, he, List.cons_append,
        utf8DecodeLoop_cons_step f b (bs ++ utf8EncodeChars cs) c.toNat
          (utf8EncodeChars cs) hs,
        ih f hf2]
      rfl

theorem length_le_utf8EncodeChars (cs : List Char) :
    cs.length ≤ (utf8EncodeChars cs).length := by
  induction cs with
  | nil => simp [utf8EncodeChars]
  | cons c cs ih =>
    rw [utf8EncodeChars, List.length_append, List.length_cons]
    have h : 1 ≤ (utf8EncodeCp c.toNat).length := by
      unfold utf8EncodeCp
      split
      · simp
      · split
        · simp
        · split <;> simp
    omega

theorem utf8DecodeCps_encodeChars (cs : List Char) :
    utf8DecodeCps (utf8EncodeChars cs) = some (cs.map Char.toNat) :=
  utf8DecodeLoop_encodeChars cs (utf8EncodeChars cs).length
    (length_le_utf8EncodeChars cs)

/-- C7: encoding a text payload through encode_data and decoding it back
through decode_data returns the original text, for every String (hence
for arbitrary Unicode content, including multi-byte utf-8 sequences). -/
theorem c7_encode_decode_roundtrip (s : String) :
    decode_data (encode_data (PyData.str s)) = some s := by
  cases s with
  | mk data =>
    show (utf8DecodeCps (utf8EncodeChars data)).map
        (fun cps => String.mk (cps.map Char.ofNat)) = some (String.mk data)
    rw [utf8DecodeCps_encodeChars data]
    show some (String.mk ((data.map Char.toNat).map Char.ofNat)) = some (String.mk data)
    rw [List.map_map,
      show (Char.ofNat ∘ Char.toNat) = id from funext (fun c => Char.ofNat_toNat c),
      List.map_id]

/-- C2: invoking a built path with keyword parameters makes the JSON
proxy construct a JSON-RPC envelope whose params field is exactly the
given mapping, whose method field is "call", whose jsonrpc field is
"2.0", and which carries an integer id field; the request body is this
envelope serialized and utf-8 encoded. -/
theorem c2_envelope_fields (p : ProxyJSON) (u : String)
    (kwargs : List (String × JValue)) (rid : Int) (resp : List Nat) :
    builderInvokeJson p { url := some u } kwargs rid resp
        = some (ProxyJSON.call p u kwargs rid resp) ∧
    (ProxyJSON.call p u kwargs rid resp).1.data
        = some (encode_data (PyData.str (json_dumps (jsonCallEnvelope kwargs rid)))) ∧
    (jsonCallEnvelope kwargs rid).lookup "params" = some (JValue.obj kwargs) ∧
    (jsonCallEnvelope kwargs rid).lookup "method" = some (JValue.str "call") ∧
    (jsonCallEnvelope kwargs rid).lookup "jsonrpc" = some (JValue.str "2.0") ∧
    ∃ n : Int, (jsonCallEnvelope kwargs rid).lookup "id" = some (JValue.int n) := by
  refine ⟨rfl, rfl, ?_, ?_, ?_, ⟨rid, ?_⟩⟩ <;> rfl

/-- C3: a JSON-proxy invocation on a proxy constructed with
deserialize=false returns exactly the raw response bytes, with no JSON
parsing performed. -/
theorem c3_deserialize_false_raw (p : ProxyJSON) (u : String)
    (kwargs : List (String × JValue)) (rid : Int) (resp : List Nat)
    (h : p.deserialize = false) :
    (ProxyJSON.call p u kwargs rid resp).2 = CallResult.raw resp := by
  simp [ProxyJSON.call, h]

/-- C3 witness: a concrete deserialize=false proxy call with response
bytes [0, 1, 2] returns CallResult.raw [0, 1, 2]. -/
theorem c3_deserialize_false_raw_witness :
    (ProxyJSON.call (ProxyJSON.make "localhost" 8069 120 false false)
      "web" [] 7 [0, 1, 2]).2 = CallResult.raw [0, 1, 2] :=
  c3_deserialize_false_raw (ProxyJSON.make "localhost" 8069 120 false false)
    "web" [] 7 [0, 1, 2] rfl

/-- C4 (code bug): on a freshly constructed connector, assigning the
timeout property raises AttributeError — _get_proxies stored un-awaited
coroutine objects — and reading it raises likewise. Had the two async
factories been awaited, the same setter would store the new value in
both proxies and both would report it, showing the missing await is the
only obstacle to the claimed behaviour. -/
theorem c4_timeout_code_bug :
    (ConnectorJSONRPC.init "localhost" 8069 120 none true).timeout_write 300
        = Except.error PyError.attributeError ∧
    (ConnectorJSONRPC.init "localhost" 8069 120 none true).timeout_read
        = Except.error PyError.attributeError ∧
    ∃ c2 : ConnectorJSONRPC,
      (awaitProxies (ConnectorJSONRPC.init "localhost" 8069 120 none true)).timeout_write 300
          = Except.ok c2 ∧
      c2.proxy_json.get_timeout = Except.ok 300 ∧
      c2.proxy_http.get_timeout = Except.ok 300 := by
  exact ⟨rfl, rfl, ⟨_, rfl, rfl, rfl⟩⟩

/-- C5 counterexample: an introspection response whose body is the empty
JSON object lacks the key server_version, yet detect_version raises
KeyError at result['result'] instead of leaving the version unset. -/
theorem c5_counterexample :
    detect_version none (JValue.obj []) = Except.error PyError.keyError ∧
    detect_version none (JValue.obj []) ≠ Except.ok none := by
  refine ⟨rfl, ?_⟩
  intro h
  exact Except.noConfusion h

/-- C5 (amended): for every introspection response whose body carries a
'result' mapping that lacks the key server_version, version detection
leaves the connector's version unset (None) and raises no exception;
a body without a 'result' mapping instead raises. -/
theorem c5_no_server_version (result : JValue) (inner : List (String × JValue))
    (hres : pyGetItemStr result "result" = Except.ok (JValue.obj inner))
    (hlacks : dictLookup inner "server_version" = none) :
    detect_version none result = Except.ok none := by
  simp [detect_version, hres, pyContainsStr, hlacks]

/-- C5 witness: a response whose result mapping has only other keys
leaves the version unset without raising. -/
theorem c5_no_server_version_witness :
    detect_version none
      (JValue.obj [("result", JValue.obj [("server_serie", JValue.str "16.0")])])
        = Except.ok none :=
  c5_no_server_version
    (JValue.obj [("result", JValue.obj [("server_serie", JValue.str "16.0")])])
    [("server_serie", JValue.str "16.0")] rfl rfl

/-- C6 counterexample: a connector constructed without an explicit
version still has version None after initialization — __init__ issues no
introspection request at all, so the cached version cannot be "16.0"
whatever the response body would have been. -/
theorem c6_counterexample :
    (ConnectorJSONRPC.init "localhost" 8069 120 none true).version
        ≠ some (JValue.str "16.0") := by
  intro h
  exact Option.noConfusion h

/-- C6 (amended): initialization leaves the cached version unset; it is
the separate version-detection step that, applied to the introspection
response body of the claim, sets the cached version to "16.0". -/
theorem c6_detect_version_16 :
    (ConnectorJSONRPC.init "localhost" 8069 120 none true).version = none ∧
    detectFromBody none jsonBody16 = Except.ok (some (JValue.str "16.0")) :=
  ⟨rfl, rfl⟩

/-- C8 counterexample: with root url http://localhost:8069 and path "/a"
the claim predicts the URL string http://localhost:8069/a, but the call
hands post a one-element tuple containing http://localhost:8069//a — no
leading slash is stripped, and the trailing comma on line 87 makes
full_url a tuple rather than a string. -/
theorem c8_counterexample :
    (ProxyHTTP.call (ProxyHTTP.make "localhost" 8069 120 false) "/a" none none).url
        = UrlArg.tuple1 "http://localhost:8069//a" ∧
    (ProxyHTTP.call (ProxyHTTP.make "localhost" 8069 120 false) "/a" none none).url
        ≠ UrlArg.str "http://localhost:8069/a" := by
  refine ⟨rfl, ?_⟩
  intro h
  exact UrlArg.noConfusion h

/-- C8 (amended): for every HTTP-proxy invocation, the url argument of
the POST is a one-element tuple whose sole element is the root url
joined to the unmodified path with '/'; no leading-slash stripping
occurs on this path. -/
theorem c8_http_url (p : ProxyHTTP) (url : String) (d : Option PyData)
    (hs : Option (List (String × String))) :
    (ProxyHTTP.call p url d hs).url = UrlArg.tuple1 (p.root_url ++ "/" ++ url) :=
  rfl

/-- C9 counterexample: a concrete JSON-proxy invocation passes no
timeout keyword to post, although the proxy's stored timeout is 120. -/
theorem c9_counterexample :
    (ProxyJSON.call (ProxyJSON.make "localhost" 8069 120 false true)
        "web" [] 0 []).1.timeout
      ≠ some (ProxyJSON.make "localhost" 8069 120 false true).timeout := by
  intro h
  exact Option.noConfusion h

/-- C9 (amended): HTTP-proxy invocations pass the proxy's stored timeout
to the client's post call; JSON-proxy invocations pass no timeout at
all. -/
theorem c9_timeout_passing (pj : ProxyJSON) (u1 : String)
    (kw : List (String × JValue)) (rid : Int) (resp : List Nat)
    (ph : ProxyHTTP) (u2 : String) (d : Option PyData)
    (hs : Option (List (String × String))) :
    (ProxyJSON.call pj u1 kw rid resp).1.timeout = none ∧
    (ProxyHTTP.call ph u2 d hs).timeout = some ph.timeout :=
  ⟨rfl, rfl⟩
